import Mathlib

/-!
Verification development for the whatsapp-ai-bot repository.

The Python sources are shallowly embedded: pure helpers become Lean functions,
the SQLAlchemy tables become lists of records inside a `DB` value, every side
effect of a handler (replies, reactions, outbound sends, calls to the Gemini
backend) becomes an explicit `Effect` value, and each external call (Gemini,
media download, wall clock) is abstracted by an `Env` parameter holding its
outcome.  Machine times are `Int` seconds; text is `String` (or `List Char`
where Python slices by character index).
-/

namespace WABot

/-- Configuration values (config.py, class Config).  `BOT_ADMIN_PHONE` is
`none` when the environment variable is unset, matching `os.getenv`. -/
structure Config where
  BOT_PREFIX : String
  BOT_NAME : String
  BOT_ADMIN_PHONE : Option String
  MAX_REQUESTS_PER_MINUTE : Nat
  SUPPORTED_FILE_TYPES : List String
  SUPPORTED_IMAGE_TYPES : List String
deriving Repr, DecidableEq

/-! ## Rate limiter (utils/decorators.py, rate_limit) -/

/-- The eviction loop of the rate_limit wrapper (decorators.py lines 50-51):
`while user_requests and user_requests[0] < cutoff_time: user_requests.popleft()`.
It trims the prefix of timestamps strictly below the cutoff. -/
def evictOld (cutoff : Int) : List Int → List Int
  | [] => []
  | t :: ts => if t < cutoff then evictOld cutoff ts else t :: ts

/-- One admission check of the rate_limit wrapper for an identified user
(decorators.py lines 44-70): evict timestamps older than `now - windowSeconds`,
reject when `len(user_requests) >= max_requests`, otherwise append `now` and
run the wrapped function.  Returns (request runs, new queue). -/
def limitStep (maxRequests : Nat) (windowSeconds : Int) (queue : List Int)
    (now : Int) : Bool × List Int :=
  let cutoff := now - windowSeconds
  let q := evictOld cutoff queue
  if q.length ≥ maxRequests then (false, q)
  else (true, q ++ [now])

/-- The whole rate_limit wrapper body (decorators.py lines 29-70).  `userId`
is the identity extracted from a Message or CallbackButton argument; `none`
models the case where no such argument is present.  `storage` is the
`rate_limit_storage` defaultdict.  Returns (wrapped function runs, storage). -/
def rateLimitWrapper (maxRequests : Nat) (windowSeconds : Int)
    (userId : Option String) (storage : String → List Int) (now : Int) :
    Bool × (String → List Int) :=
  match userId with
  | none => (true, storage)
  | some uid =>
    let r := limitStep maxRequests windowSeconds (storage uid) now
    (r.1, fun k => if k = uid then r.2 else storage k)

/-- The admit operation in the words of the specification: discard every
timestamp older than `now - w` (not merely a prefix of them), then admit iff
the remaining count is strictly below `n`, appending `now` on admission and
leaving the queue unchanged on rejection. -/
def limitSpecStep (n : Nat) (w : Int) (queue : List Int) (now : Int) :
    Bool × List Int :=
  let q := queue.filter (fun t => decide (now - w ≤ t))
  if q.length < n then (true, q ++ [now]) else (false, q)

/-- Fold a sequence of admission attempts for a single identity through
`limitStep`, starting from an empty queue and collecting the verdicts. -/
def runRequests (n : Nat) (w : Int) (times : List Int) : List Bool × List Int :=
  times.foldl
    (fun acc t =>
      let r := limitStep n w acc.2 t
      (acc.1 ++ [r.1], r.2))
    ([], [])

/-! ## Gemini service (gemini_service.py, class AIService)

Each operation calls the external backend once; the call is abstracted by a
`BackendResult` argument carrying its outcome.  (The strings below reproduce
the file byte-for-byte; gemini_service.py stores its emoji in a doubly
encoded form, hence the accented characters.) -/

/-- Outcome of one `client.models.generate_content` call: `ok` carries
`response.text` (`none` models a missing text), `fault` carries the detail of
a raised exception. -/
inductive BackendResult where
  | ok (text : Option String)
  | fault (detail : String)
deriving Repr, DecidableEq

/-- Python `x or default` for an optional string: a falsy value (absent or
empty) selects the default. -/
def pyOrElse (t : Option String) (default : String) : String :=
  match t with
  | some s => if s = "" then default else s
  | none => default

/-- AIService.chat_response (gemini_service.py lines 68-95): on success
`response.text or <empty default>`, on an exception the fixed fallback. -/
def chat_response (outcome : BackendResult) : String :=
  match outcome with
  | .ok t =>
      pyOrElse t "ðŸ¤” I\x27m having trouble generating a response right now. Please try again!"
  | .fault _ =>
      "âŒ Sorry, I\x27m experiencing technical difficulties. Please try again later!"

/-- AIService.analyze_file_content (gemini_service.py lines 97-126). -/
def analyze_file_content (outcome : BackendResult) : String :=
  match outcome with
  | .ok t =>
      pyOrElse t "ðŸ“„ I couldn\x27t analyze this file. The content might be too complex or corrupted."
  | .fault _ =>
      "âŒ Error analyzing file. Please try again or check if the file format is supported."

/-- AIService.analyze_image (gemini_service.py lines 128-157). -/
def analyze_image (outcome : BackendResult) : String :=
  match outcome with
  | .ok t =>
      pyOrElse t "ðŸ–¼ï¸ I couldn\x27t analyze this image. Please try with a different image."
  | .fault _ =>
      "âŒ Error analyzing image. Please ensure the image is clear and try again."

/-! ## Long-message splitting (commands/ai.py lines 149-165)

Python indexes strings by character, so the text is a `List Char` here. -/

/-- The chunk list `[response_text[i:i+3500] for i in range(0, len(response_text), 3500)]`.
`range(0, L, 3500)` has `ceil(L / 3500)` elements. -/
def pyChunks (text : List Char) : List (List Char) :=
  (List.range ((text.length + 3499) / 3500)).map
    (fun k => (text.drop (3500 * k)).take 3500)

/-- Split a character list at every occurrence of `sep` (Python str.split
with an explicit separator keeps empty pieces). -/
def splitOnChar (sep : Char) : List Char → List (List Char)
  | [] => [[]]
  | c :: cs =>
    match splitOnChar sep cs with
    | [] => [[]]
    | h :: t => if c = sep then [] :: h :: t else (c :: h) :: t

/-- Python `text.split(chr(10))` on a character list. -/
def splitNl (l : List Char) : List (List Char) := splitOnChar '\n' l

/-- The continuation marker appended to the summary message. -/
def truncMarker : List Char :=
  ("\n\n📄 *[Content truncated for WhatsApp]*").data

/-- The summary message: the first 15 lines of the text plus the marker
(ai.py lines 154-155). -/
def summaryOf (text : List Char) : List Char :=
  List.intercalate ['\n'] ((splitNl text).take 15) ++ truncMarker

/-- Header of the i-th follow-up message, `f"📄 *Part {i}*\n\n"`. -/
def partHeader (i : Nat) : List Char :=
  ("📄 *Part " ++ toString i ++ "*\n\n").data

/-- The follow-up messages (ai.py lines 159-163): of the first 3 chunks, chunk 0
is skipped and chunk i is sent with header `Part i+1`. -/
def followUps (text : List Char) : List (List Char) :=
  ((pyChunks text).take 3).enum.filterMap
    (fun ic => if ic.1 = 0 then none else some (partHeader (ic.1 + 1) ++ ic.2))

/-- The raw chunk payloads carried by the follow-up messages. -/
def followPayloads (text : List Char) : List (List Char) :=
  ((pyChunks text).take 3).drop 1

/-- The message sequence sent for one AI reply (ai.py lines 152-165): a long
text becomes the summary plus the follow-ups, a short one is sent whole. -/
def splitLongMessage (text : List Char) : List (List Char) :=
  if text.length > 4000 then summaryOf text :: followUps text
  else [text]

/-! ## Data model (models.py)

Each SQLAlchemy table becomes a list of records inside `DB`.  The surrogate
integer primary keys are represented by the unique natural keys the code looks
rows up by (`phone_number` for users, `group_id` for groups); timing columns
that no logic reads (`processing_time`, `tokens_used`, row timestamps other
than the user ones) are omitted. -/

/-- models.py class User (lines 5-19). -/
structure UserRec where
  phone_number : String
  name : Option String
  is_admin : Bool
  is_banned : Bool
  created_at : Int
  last_seen : Int
deriving Repr, DecidableEq

/-- models.py class Group (lines 21-34). -/
structure GroupRec where
  group_id : String
  name : Option String
  is_active : Bool
deriving Repr, DecidableEq

/-- models.py class Message (lines 36-49); `user_id` holds the phone number of
the owning user. -/
structure MessageRow where
  message_id : String
  user_id : String
  group_id : Option String
  content : String
  message_type : String
  is_command : Bool
  command_name : Option String
deriving Repr, DecidableEq

/-- models.py class AIRequest (lines 51-65). -/
structure AIRequestRow where
  user_id : String
  request_type : String
  prompt : String
  response : String
deriving Repr, DecidableEq

/-- models.py class FileProcessing (lines 67-82). -/
structure FileProcessingRow where
  user_id : String
  filename : String
  file_type : String
  file_size : Nat
  content_extracted : Bool
  ai_analyzed : Bool
deriving Repr, DecidableEq

/-- models.py class BotStats (lines 84-92); `date` is a day number. -/
structure StatsRow where
  metric_name : String
  metric_value : Int
  date : Int
deriving Repr, DecidableEq

/-- The whole persisted state. -/
structure DB where
  users : List UserRec
  groups : List GroupRec
  messages : List MessageRow
  aiRequests : List AIRequestRow
  fileProcessings : List FileProcessingRow
  botStats : List StatsRow
deriving Repr, DecidableEq

/-- Message type tag of an inbound pywa message. -/
inductive MsgType where
  | text
  | image
  | document
  | other
deriving Repr, DecidableEq

/-- The string `message.type.value` stored in the audit row. -/
def msgTypeValue : MsgType → String
  | .text => "text"
  | .image => "image"
  | .document => "document"
  | .other => "unknown"

/-- An inbound pywa Message, reduced to the attributes the handlers read. -/
structure InMsg where
  msg_id : String
  sender : String
  sender_name : Option String
  type : MsgType
  text : Option String
  image_filename : Option String
  doc_filename : Option String
  group_id : Option String
deriving Repr, DecidableEq

/-- Observable side effects of a handler, in emission order. -/
inductive Effect where
  | reply (text : String)
  | react (emoji : String)
  | sendTo (phone : String) (text : String)
  | aiCall (requestType : String)
deriving Repr, DecidableEq

/-- Outcomes of the external calls one inbound event can make: the Gemini
calls (abstracted by their `BackendResult`), the WhatsApp media download
(`none` models a falsy result), the file extraction, the wall clock strings,
and the regular-expression mention extraction of commands/group.py. -/
structure Env where
  chatOutcome : BackendResult
  imageOutcome : BackendResult
  fileOutcome : BackendResult
  mediaBytes : Option String
  processFileContent : String
  processFileExtension : String
  processFileSize : Nat
  uptimeStr : String
  nowStr : String
  mentionOf : String → Option String

/-! ## Small string helpers mirroring Python idioms -/

/-- Python `text.split()` restricted to the space character: split on spaces
and drop empty pieces. -/
def pySplitWs (s : String) : List String :=
  (splitOnChar ' ' s.data).filterMap
    (fun w => if w.isEmpty then none else some (String.mk w))

/-- Python `text.split(chr(32), 1)`: split at the first space only. -/
def pySplitOnce (s : String) : List String :=
  match splitOnChar ' ' s.data with
  | [] => [s]
  | [x] => [String.mk x]
  | x :: rest => [String.mk x, String.mk (List.intercalate [' '] rest)]

/-- The whitespace characters Python str.strip removes. -/
def pyWsChar (c : Char) : Bool :=
  c = ' ' || c = '\t' || c = '\n' || c = '\r'

/-- Python `text.strip()`. -/
def pyStrip (s : String) : String :=
  String.mk (((s.data.dropWhile pyWsChar).reverse.dropWhile pyWsChar).reverse)

/-- The target phone parsed by handle_ban_user / handle_unban_user
(admin.py lines 152-157 and 200-205): `text.split(chr(32), 1)[1].strip()`,
or `none` when there is no argument. -/
def targetPhoneOf (text : String) : Option String :=
  let parts := pySplitOnce text
  if parts.length < 2 then none else some (pyStrip (parts.getD 1 ""))

/-- Lower-cased extension after the last dot, `os.path.splitext(...)[1].lower()[1:]`
(file_processor.py lines 38-41; a leading-dot-only name is not distinguished). -/
def fileExtension (filename : String) : String :=
  match (filename.splitOn ".").reverse with
  | [] => ""
  | [_] => ""
  | ext :: _ => ext.toLower

/-- FileProcessor.is_supported_file. -/
def is_supported_file (cfg : Config) (filename : String) : Bool :=
  cfg.SUPPORTED_FILE_TYPES.contains (fileExtension filename)

/-! ## User bookkeeping (bot.py) -/

/-- Replace the first user whose phone matches (the row `query...first()`
returns) by its mutated image, leaving every other row untouched. -/
def updateUser : List UserRec → String → (UserRec → UserRec) → List UserRec
  | [], _, _ => []
  | u :: us, phone, f =>
    if u.phone_number = phone then f u :: us else u :: updateUser us phone f

/-- The update applied to an existing user on contact (bot.py lines 52-56):
refresh `last_seen` and backfill a missing name. -/
def touchUser (name : Option String) (now : Int) (u : UserRec) : UserRec :=
  { u with
    last_seen := now
    name := match name, u.name with
            | some n, none => some n
            | _, _ => u.name }

/-- bot.py get_or_create_user (lines 39-57).  A new user is admin iff the
phone equals the configured `BOT_ADMIN_PHONE`. -/
def get_or_create_user (cfg : Config) (db : DB) (phone : String)
    (name : Option String) (now : Int) : UserRec × DB :=
  match db.users.find? (fun u => u.phone_number == phone) with
  | some u =>
    (touchUser name now u,
     { db with users := updateUser db.users phone (touchUser name now) })
  | none =>
    let u : UserRec :=
      { phone_number := phone
        name := name
        is_admin := match cfg.BOT_ADMIN_PHONE with
                    | some a => phone == a
                    | none => false
        is_banned := false
        created_at := now
        last_seen := now }
    (u, { db with users := db.users ++ [u] })

/-- The banned reply of bot.py handle_message (lines 99-104). -/
def bannedReplyText (cfg : Config) : String :=
  "❌ You are banned from using this bot." ++
    (match cfg.BOT_ADMIN_PHONE with
     | some a => " Please contact the admin at " ++ a ++ " for more information."
     | none => "")

/-- Whether the message text makes the audit row a command row
(bot.py line 75). -/
def isCommandText (cfg : Config) (text : Option String) : Bool :=
  match text with
  | some t => t != "" && t.startsWith cfg.BOT_PREFIX
  | none => false

/-- The parsed command name stored in the audit row (bot.py line 76):
first whitespace token without its leading prefix character. -/
def auditCommandName (cfg : Config) (text : Option String) : Option String :=
  if isCommandText cfg text then
    some (((pySplitWs ((text.getD "").toLower)).headD "").drop 1)
  else none

/-- bot.py log_message (lines 59-91): refresh or create the user, reject a
banned sender with the short banned reply, otherwise append the audit row
(creating the group row lazily for a group message). -/
def log_message (cfg : Config) (db : DB) (msg : InMsg) (now : Int) :
    List Effect × DB :=
  let r := get_or_create_user cfg db msg.sender msg.sender_name now
  let user := r.1
  let db1 := r.2
  if user.is_banned then
    ([Effect.reply "❌ You are banned from using this bot."], db1)
  else
    let db2 :=
      match msg.group_id with
      | some gid =>
        if db1.groups.any (fun g => g.group_id == gid) then db1
        else { db1 with groups := db1.groups ++ [({ group_id := gid, name := none, is_active := true } : GroupRec)] }
      | none => db1
    let row : MessageRow :=
      { message_id := msg.msg_id
        user_id := user.phone_number
        group_id := msg.group_id
        content := msg.text.getD ""
        message_type := msgTypeValue msg.type
        is_command := isCommandText cfg msg.text
        command_name := auditCommandName cfg msg.text }
    ([], { db2 with messages := db2.messages ++ [row] })

/-! ## AI handlers (commands/ai.py) -/

/-- commands/ai.py log_ai_request (lines 189-202): append the request row with
prompt and response truncated to 1000 and 2000 characters. -/
def log_ai_request (db : DB) (user : UserRec) (requestType prompt response : String) : DB :=
  { db with aiRequests := db.aiRequests ++
      [{ user_id := user.phone_number
         request_type := requestType
         prompt := prompt.take 1000
         response := response.take 2000 }] }

/-- commands/ai.py log_file_processing (lines 204-219). -/
def log_file_processing (db : DB) (user : UserRec) (filename : String)
    (extension : String) (size : Nat) : DB :=
  { db with fileProcessings := db.fileProcessings ++
      [{ user_id := user.phone_number
         filename := filename
         file_type := extension
         file_size := size
         content_extracted := true
         ai_analyzed := true }] }

/-- commands/ai.py handle_ai_chat (lines 14-51). -/
def handle_ai_chat (cfg : Config) (env : Env) (db : DB) (msg : InMsg) (now : Int) :
    List Effect × DB :=
  let r := get_or_create_user cfg db msg.sender msg.sender_name now
  let user := r.1
  let db1 := r.2
  if user.is_banned then ([], db1)
  else if msg.text.getD "" == "" then
    ([Effect.reply "🤖 Send me a text message to start chatting!"], db1)
  else
    let aiResponse := chat_response env.chatOutcome
    let db2 := log_ai_request db1 user "chat" (msg.text.getD "") aiResponse
    ([Effect.reply "🤔 Thinking...", Effect.aiCall "chat",
      Effect.reply aiResponse, Effect.react "🤖"], db2)

/-- commands/ai.py handle_image_message (lines 53-93). -/
def handle_image_message (cfg : Config) (env : Env) (db : DB) (msg : InMsg)
    (now : Int) : List Effect × DB :=
  let r := get_or_create_user cfg db msg.sender msg.sender_name now
  let user := r.1
  let db1 := r.2
  if user.is_banned then ([], db1)
  else
    match env.mediaBytes with
    | none =>
      ([Effect.reply "📸 Analyzing your image...",
        Effect.reply "❌ Failed to download image. Please try again."], db1)
    | some _ =>
      let analysis := analyze_image env.imageOutcome
      let db2 := log_ai_request db1 user "image_analysis"
        ("Image: " ++ (match msg.image_filename with | some f => f | none => "None"))
        analysis
      ([Effect.reply "📸 Analyzing your image...",
        Effect.aiCall "image_analysis",
        Effect.reply ("🖼️ *Image Analysis*\n\n" ++ analysis),
        Effect.react "👁️"], db2)

/-- The unsupported-file reply of handle_file_message (ai.py lines 106-111):
the first ten supported document extensions plus the image extensions. -/
def unsupportedFileText (cfg : Config) : String :=
  "❌ Unsupported file type. Supported formats:\n📄 Documents: " ++
    String.intercalate ", " (cfg.SUPPORTED_FILE_TYPES.take 10) ++
    "\n🖼️ Images: " ++ String.intercalate ", " cfg.SUPPORTED_IMAGE_TYPES

/-- commands/ai.py handle_file_message (lines 95-182).  The temp-file plumbing
is invisible here; extraction yields `env.processFileContent`, whose leading
failure marker short-circuits the AI analysis. -/
def handle_file_message (cfg : Config) (env : Env) (db : DB) (msg : InMsg)
    (now : Int) : List Effect × DB :=
  let r := get_or_create_user cfg db msg.sender msg.sender_name now
  let user := r.1
  let db1 := r.2
  if user.is_banned then ([], db1)
  else
    let filename := msg.doc_filename.getD "unknown_file"
    if !is_supported_file cfg filename then
      ([Effect.reply (unsupportedFileText cfg)], db1)
    else
      let processing := Effect.reply ("📄 Processing file: `" ++ filename ++ "`...")
      match env.mediaBytes with
      | none =>
        ([processing, Effect.reply "❌ Failed to download file. Please try again."], db1)
      | some _ =>
        if env.processFileContent.startsWith "❌" then
          ([processing, Effect.reply env.processFileContent], db1)
        else
          let analysis := analyze_file_content env.fileOutcome
          let db2 := log_file_processing db1 user filename
            env.processFileExtension env.processFileSize
          let db3 := log_ai_request db2 user "file_analysis"
            ("File: " ++ filename) analysis
          let responseText := "📄 *File Analysis: " ++ filename ++ "*\n\n" ++ analysis
          ([processing, Effect.aiCall "file_analysis"] ++
             (splitLongMessage responseText.data).map (fun l => Effect.reply (String.mk l)) ++
             [Effect.react "📄"], db3)

/-! ## Basic commands (commands/help.py, commands/start.py) -/

/-- The help text of handle_help_command (help.py lines 11-48); the admin
sections appear only for admins. -/
def helpText (cfg : Config) (user : UserRec) : String :=
  "🤖 *" ++ cfg.BOT_NAME ++ " - Help*\n\n" ++
  "📚 *Available Commands:*\n\n" ++
  "`" ++ cfg.BOT_PREFIX ++ "start` - Start conversation with bot\n" ++
  "`" ++ cfg.BOT_PREFIX ++ "help` - Show this help message\n" ++
  "`" ++ cfg.BOT_PREFIX ++ "info` - Get bot information\n\n" ++
  "🧠 *AI Features:*\n" ++
  "• Send any text message for AI chat\n" ++
  "• Send images for AI analysis\n" ++
  "• Send documents for content analysis\n" ++
  "• Supported files: PDF, TXT, HTML, JSON, CSV, XML, YAML, code files\n\n" ++
  (if user.is_admin then
    "👑 *Admin Commands:*\n" ++
    "`" ++ cfg.BOT_PREFIX ++ "admin` - Show admin panel\n" ++
    "`" ++ cfg.BOT_PREFIX ++ "broadcast <message>` - Broadcast to all users\n" ++
    "`" ++ cfg.BOT_PREFIX ++ "ban <user>` - Ban a user\n" ++
    "`" ++ cfg.BOT_PREFIX ++ "unban <user>` - Unban a user\n" ++
    "`" ++ cfg.BOT_PREFIX ++ "stats` - Show bot statistics\n\n" ++
    "🛡️ *Group Management:*\n" ++
    "`" ++ cfg.BOT_PREFIX ++ "kick @user` - Remove user from group\n" ++
    "`" ++ cfg.BOT_PREFIX ++ "mute @user` - Mute user in group\n" ++
    "`" ++ cfg.BOT_PREFIX ++ "unmute @user` - Unmute user\n" ++
    "`" ++ cfg.BOT_PREFIX ++ "promote @user` - Promote to admin\n" ++
    "`" ++ cfg.BOT_PREFIX ++ "demote @user` - Remove admin rights\n\n"
   else "") ++
  "💡 *Tips:*\n" ++
  "• Just send me a message to start chatting!\n" ++
  "• I can analyze images and extract text\n" ++
  "• Send me documents for detailed analysis\n" ++
  "• Use reactions to interact with my messages\n\n" ++
  "🔗 *Quick Actions:*"

/-- commands/help.py handle_help_command (reply buttons are not modelled). -/
def handle_help_command (cfg : Config) (db : DB) (user : UserRec) :
    List Effect × DB :=
  ([Effect.reply (helpText cfg user)], db)

/-- The welcome text of handle_start_command (start.py lines 11-48). -/
def welcomeText (cfg : Config) (user : UserRec) : String :=
  "🎉 *Welcome to " ++ cfg.BOT_NAME ++ "!*\n\n" ++
  (match user.name with
   | some n => "Hello " ++ n ++ "! 👋\n\n"
   | none => "Hello there! 👋\n\n") ++
  "🤖 I\x27m an AI-powered WhatsApp bot with amazing capabilities:\n\n" ++
  "💬 *Chat Features:*\n" ++
  "• Intelligent conversations with AI\n" ++
  "• Fun and engaging responses\n" ++
  "• Contextual understanding\n\n" ++
  "📄 *File Analysis:*\n" ++
  "• PDF text extraction\n" ++
  "• Code analysis (Python, JS, etc.)\n" ++
  "• Document processing\n" ++
  "• HTML, JSON, CSV parsing\n\n" ++
  "🖼️ *Image Analysis:*\n" ++
  "• Describe images in detail\n" ++
  "• Extract text from images\n" ++
  "• Object and scene recognition\n\n" ++
  (if user.is_admin then
    "👑 *Admin Features:*\n" ++
    "• Group management tools\n" ++
    "• User moderation\n" ++
    "• Broadcast messages\n" ++
    "• Bot analytics dashboard\n\n"
   else "") ++
  "🚀 *Getting Started:*\n" ++
  "• Type `" ++ cfg.BOT_PREFIX ++ "help` for all commands\n" ++
  "• Send me any message to start chatting\n" ++
  "• Send images or files for analysis\n\n" ++
  "Let\x27s start our conversation! What would you like to do? 😊"

/-- commands/start.py handle_start_command. -/
def handle_start_command (cfg : Config) (db : DB) (user : UserRec) :
    List Effect × DB :=
  ([Effect.reply (welcomeText cfg user), Effect.react "🎉"], db)

/-! ## Analytics (analytics.py, class Analytics) -/

def get_total_users (db : DB) : Nat := db.users.length

def get_total_messages (db : DB) : Nat := db.messages.length

/-- Users whose `last_seen` lies within the trailing `days` days. -/
def get_active_users (db : DB) (now : Int) (days : Nat) : Nat :=
  (db.users.filter (fun u => decide (now - (days : Int) * 86400 ≤ u.last_seen))).length

def get_commands_used (db : DB) : Nat :=
  (db.messages.filter (fun m => m.is_command)).length

def get_ai_requests (db : DB) : Nat := db.aiRequests.length

def get_files_processed (db : DB) : Nat := db.fileProcessings.length

def get_active_groups (db : DB) : Nat :=
  (db.groups.filter (fun g => g.is_active)).length

/-- Command names of the command audit rows, with multiplicity. -/
def commandOccurrences (db : DB) : List String :=
  db.messages.filterMap (fun m => if m.is_command then m.command_name else none)

/-- Insert a (command, count) pair into a list kept sorted by count, largest
first. -/
def insertByCount (p : String × Nat) : List (String × Nat) → List (String × Nat)
  | [] => [p]
  | q :: qs => if q.2 ≤ p.2 then p :: q :: qs else q :: insertByCount p qs

/-- Analytics.get_popular_commands (analytics.py lines 97-116): distinct
command names with their use counts, most used first, truncated to `limit`. -/
def get_popular_commands (db : DB) (limit : Nat) : List (String × Nat) :=
  let occs := commandOccurrences db
  (((occs.eraseDups).map (fun c => (c, occs.count c))).foldl
      (fun acc p => insertByCount p acc) []).take limit

/-- Analytics.get_user_stats (analytics.py lines 140-157), as the tuple
(total, active last 7 days, admins, banned). -/
def get_user_stats (db : DB) (now : Int) : Nat × Nat × Nat × Nat :=
  (get_total_users db,
   get_active_users db now 7,
   (db.users.filter (fun u => u.is_admin)).length,
   (db.users.filter (fun u => u.is_banned)).length)

/-- The five metric rows Analytics.record_daily_stats snapshots
(analytics.py lines 187-193). -/
def dailyMetrics (db : DB) : List (String × Int) :=
  [("total_users", (get_total_users db : Int)),
   ("total_messages", (get_total_messages db : Int)),
   ("ai_requests", (get_ai_requests db : Int)),
   ("files_processed", (get_files_processed db : Int)),
   ("active_groups", (get_active_groups db : Int))]

/-- Analytics.record_daily_stats (analytics.py lines 175-203): skip when any
row for today already exists, otherwise append one row per metric in one
commit. -/
def record_daily_stats (db : DB) (today : Int) : DB :=
  if db.botStats.any (fun r => r.date == today) then db
  else
    { db with botStats := db.botStats ++
        (dailyMetrics db).map (fun m =>
          ({ metric_name := m.1, metric_value := m.2, date := today } : StatsRow)) }

/-- The invariant of the BotStats table: at most one row per (metric, date). -/
def statsKeyUnique (rows : List StatsRow) : Prop :=
  rows.Pairwise (fun a b => ¬ (a.metric_name = b.metric_name ∧ a.date = b.date))

/-! ## Admin commands (commands/admin.py) -/

/-- The admin panel text of show_admin_panel (admin.py lines 44-90). -/
def adminPanelText (cfg : Config) (env : Env) (db : DB) (now : Int) : String :=
  "👑 *" ++ cfg.BOT_NAME ++ " - Admin Panel*\n\n" ++
  "📊 *Quick Stats:*\n" ++
  "• Total Users: " ++ toString (get_total_users db) ++ "\n" ++
  "• Total Messages: " ++ toString (get_total_messages db) ++ "\n" ++
  "• Active Users (24h): " ++ toString (get_active_users db now 24) ++ "\n" ++
  "• AI Requests: " ++ toString (get_ai_requests db) ++ "\n" ++
  "• Bot Uptime: " ++ env.uptimeStr ++ "\n\n" ++
  "🛠️ *Available Actions:*\n" ++
  "`" ++ cfg.BOT_PREFIX ++ "stats` - Detailed statistics\n" ++
  "`" ++ cfg.BOT_PREFIX ++ "broadcast <msg>` - Send to all users\n" ++
  "`" ++ cfg.BOT_PREFIX ++ "ban <phone>` - Ban user\n" ++
  "`" ++ cfg.BOT_PREFIX ++ "unban <phone>` - Unban user\n\n" ++
  "🔗 *Quick Links:*\n" ++
  "• Visit dashboard for detailed analytics\n"

/-- admin.py show_admin_panel: reads statistics, replies, changes nothing. -/
def show_admin_panel (cfg : Config) (env : Env) (db : DB) (now : Int) :
    List Effect × DB :=
  ([Effect.reply (adminPanelText cfg env db now)], db)

/-- admin.py handle_broadcast (lines 92-146): send the text to every
non-banned user except the sender, then report.  Transport failures are not
modelled, so `failed_count` is 0 and its line is absent. -/
def handle_broadcast (cfg : Config) (env : Env) (db : DB) (user : UserRec)
    (msg : InMsg) : List Effect × DB :=
  match msg.text with
  | none => ([Effect.reply "❌ No message content provided for broadcast."], db)
  | some text =>
    let parts := pySplitOnce text
    if parts.length < 2 then
      ([Effect.reply ("❌ Usage: `" ++ cfg.BOT_PREFIX ++ "broadcast <message>`")], db)
    else
      let broadcastMessage := parts.getD 1 ""
      let targets := db.users.filter (fun u => u.is_banned == false)
      if targets.isEmpty then ([Effect.reply "❌ No active users found."], db)
      else
        let btext := "📢 *Broadcast Message*\n\n" ++ broadcastMessage ++
          "\n\n_Sent by admin at " ++ env.nowStr ++ "_"
        let recipients := targets.filter (fun t => t.phone_number != user.phone_number)
        ((recipients.map (fun t => Effect.sendTo t.phone_number btext)) ++
           [Effect.reply ("📢 *Broadcast Complete*\n\n✅ Sent to: " ++
             toString recipients.length ++ " users\n" ++
             "\nMessage: _" ++ broadcastMessage ++ "_")], db)

/-- admin.py handle_ban_user (lines 148-194). -/
def handle_ban_user (cfg : Config) (db : DB) (user : UserRec) (msgText : Option String) :
    List Effect × DB :=
  match msgText with
  | none => ([Effect.reply "❌ No phone number provided."], db)
  | some text =>
    match targetPhoneOf text with
    | none =>
      ([Effect.reply ("❌ Usage: `" ++ cfg.BOT_PREFIX ++ "ban <phone_number>`")], db)
    | some targetPhone =>
      match db.users.find? (fun u => u.phone_number == targetPhone) with
      | none => ([Effect.reply ("❌ User " ++ targetPhone ++ " not found.")], db)
      | some target =>
        if target.is_admin then
          ([Effect.reply "❌ Cannot ban an admin user."], db)
        else if target.is_banned then
          ([Effect.reply ("⚠️ User " ++ targetPhone ++ " is already banned.")], db)
        else
          ([Effect.sendTo targetPhone "🚫 You have been banned from using this bot. If you believe this is a mistake, please contact support.",
            Effect.reply ("✅ User " ++ targetPhone ++ " has been banned.")],
           { db with users := updateUser db.users targetPhone (fun u => { u with is_banned := true }) })

/-- admin.py handle_unban_user (lines 196-238). -/
def handle_unban_user (cfg : Config) (db : DB) (user : UserRec) (msgText : Option String) :
    List Effect × DB :=
  match msgText with
  | none => ([Effect.reply "❌ No phone number provided."], db)
  | some text =>
    match targetPhoneOf text with
    | none =>
      ([Effect.reply ("❌ Usage: `" ++ cfg.BOT_PREFIX ++ "unban <phone_number>`")], db)
    | some targetPhone =>
      match db.users.find? (fun u => u.phone_number == targetPhone) with
      | none => ([Effect.reply ("❌ User " ++ targetPhone ++ " not found.")], db)
      | some target =>
        if !target.is_banned then
          ([Effect.reply ("⚠️ User " ++ targetPhone ++ " is not banned.")], db)
        else
          ([Effect.sendTo targetPhone "🎉 You have been unbanned! Welcome back to the bot.",
            Effect.reply ("✅ User " ++ targetPhone ++ " has been unbanned.")],
           { db with users := updateUser db.users targetPhone (fun u => { u with is_banned := false }) })

/-- The statistics text of show_bot_stats (admin.py lines 240-297). -/
def botStatsText (cfg : Config) (env : Env) (db : DB) (now : Int) : String :=
  let us := get_user_stats db now
  "📊 *" ++ cfg.BOT_NAME ++ " - Statistics*\n\n" ++
  "👥 *User Statistics:*\n" ++
  "• Total Users: " ++ toString us.1 ++ "\n" ++
  "• Active (7 days): " ++ toString us.2.1 ++ "\n" ++
  "• Admins: " ++ toString us.2.2.1 ++ "\n" ++
  "• Banned: " ++ toString us.2.2.2 ++ "\n\n" ++
  "💬 *Message Statistics:*\n" ++
  "• Total Messages: " ++ toString (get_total_messages db) ++ "\n" ++
  "• Commands Used: " ++ toString (get_commands_used db) ++ "\n" ++
  "• AI Requests: " ++ toString (get_ai_requests db) ++ "\n" ++
  "• Files Processed: " ++ toString (get_files_processed db) ++ "\n\n" ++
  (let pops := get_popular_commands db 5
   if pops.isEmpty then ""
   else "🔥 *Popular Commands:*\n" ++
     String.join (pops.map (fun p => "• /" ++ p.1 ++ ": " ++ toString p.2 ++ " uses\n")) ++ "\n") ++
  "⚙️ *System Information:*\n" ++
  "• Bot Uptime: " ++ env.uptimeStr ++ "\n" ++
  "• Active Groups: " ++ toString (get_active_groups db) ++ "\n" ++
  "• Bot Prefix: " ++ cfg.BOT_PREFIX ++ "\n" ++
  "• Last Updated: " ++ env.nowStr ++ "\n"

/-- admin.py show_bot_stats: reads statistics, replies, changes nothing. -/
def show_bot_stats (cfg : Config) (env : Env) (db : DB) (now : Int) :
    List Effect × DB :=
  ([Effect.reply (botStatsText cfg env db now)], db)

/-- admin.py handle_admin_commands (lines 11-42): the admin gate followed by
the dispatch on the admin command name. -/
def handle_admin_commands (cfg : Config) (env : Env) (db : DB) (msg : InMsg)
    (user : UserRec) (command : String) (now : Int) : List Effect × DB :=
  if !user.is_admin then
    ([Effect.reply "❌ Access denied. Admin privileges required."], db)
  else if command == "admin" then show_admin_panel cfg env db now
  else if command == "broadcast" then handle_broadcast cfg env db user msg
  else if command == "ban" then handle_ban_user cfg db user msg.text
  else if command == "unban" then handle_unban_user cfg db user msg.text
  else if command == "stats" then show_bot_stats cfg env db now
  else ([Effect.reply ("❓ Unknown admin command: " ++ command)], db)

/-! ## Group commands (commands/group.py)

The group actions are simulations: they only reply with a description.  The
regular-expression mention extraction is abstracted by `env.mentionOf`. -/

/-- The simulated group-action reply body (group.py, each handler). -/
def groupSimText (title action note : String) (target : String) (user : UserRec) : String :=
  title ++ "\n\nTarget: " ++ target ++ "\nAction: " ++ action ++
  "\nExecuted by: " ++ (user.name.getD user.phone_number) ++ "\n\n" ++ note

/-- The usage reply of a group handler with no extractable mention. -/
def groupUsageText (cfg : Config) (command : String) : String :=
  "❌ Usage: `" ++ cfg.BOT_PREFIX ++ command ++ "@username` or `" ++
    cfg.BOT_PREFIX ++ command ++ "<phone_number>`"

/-- One simulated group handler (group.py handle_kick_user and friends). -/
def groupAction (cfg : Config) (env : Env) (db : DB) (msg : InMsg)
    (user : UserRec) (command title action note : String) : List Effect × DB :=
  match env.mentionOf (msg.text.getD "") with
  | none => ([Effect.reply (groupUsageText cfg (command ++ " "))], db)
  | some m => ([Effect.reply (groupSimText title action note m user)], db)

/-- group.py handle_group_commands (lines 9-38). -/
def handle_group_commands (cfg : Config) (env : Env) (db : DB) (msg : InMsg)
    (user : UserRec) (command : String) : List Effect × DB :=
  if !user.is_admin then
    ([Effect.reply "❌ Access denied. Admin privileges required."], db)
  else
    match msg.group_id with
    | none => ([Effect.reply "❌ This command can only be used in groups."], db)
    | some _ =>
      if command == "kick" then
        groupAction cfg env db msg user "kick" "🚫 *Group Action: Kick User*"
          "Remove from group"
          "⚠️ *Note: Group management requires WhatsApp Business API group admin permissions.*"
      else if command == "ban" then
        groupAction cfg env db msg user "ban" "🔨 *Group Action: Ban User*"
          "Ban from group"
          "⚠️ *Note: This would prevent the user from rejoining the group.*"
      else if command == "mute" then
        groupAction cfg env db msg user "mute" "🔇 *Group Action: Mute User*"
          "Restrict messaging"
          "ℹ️ *User will not be able to send messages in this group.*"
      else if command == "unmute" then
        groupAction cfg env db msg user "unmute" "🔊 *Group Action: Unmute User*"
          "Restore messaging rights"
          "✅ *User can now send messages in this group.*"
      else if command == "promote" then
        groupAction cfg env db msg user "promote" "⬆️ *Group Action: Promote User*"
          "Promote to admin"
          "👑 *User will receive admin privileges in this group.*"
      else if command == "demote" then
        groupAction cfg env db msg user "demote" "⬇️ *Group Action: Demote User*"
          "Remove admin rights"
          "👤 *User will lose admin privileges in this group.*"
      else ([Effect.reply ("❓ Unknown group command: " ++ command)], db)

/-! ## Routing (bot.py handle_command and handle_message) -/

/-- The unknown-command reply of handle_command (bot.py lines 149-156). -/
def unknownCommandText (cfg : Config) (command : String) : String :=
  "❓ Unknown command: `" ++ command ++ "`\n\nType `" ++ cfg.BOT_PREFIX ++
    "help` to see available commands."

/-- bot.py handle_command (lines 132-159): lower-case the text, take the first
whitespace token without its prefix character, refresh the user, dispatch.
The admin command list is tested before the group list, so `ban` always goes
to the admin handler. -/
def handle_command (cfg : Config) (env : Env) (db : DB) (msg : InMsg)
    (now : Int) : List Effect × DB :=
  let command := ((pySplitWs ((msg.text.getD "").toLower)).headD "").drop 1
  let r := get_or_create_user cfg db msg.sender msg.sender_name now
  let user := r.1
  let db1 := r.2
  if command == "help" then handle_help_command cfg db1 user
  else if command == "start" then handle_start_command cfg db1 user
  else if (command == "admin" || command == "broadcast" || command == "ban" ||
           command == "unban" || command == "stats") then
    handle_admin_commands cfg env db1 msg user command now
  else if (command == "kick" || command == "ban" || command == "mute" ||
           command == "unmute" || command == "promote" || command == "demote") then
    handle_group_commands cfg env db1 msg user command
  else ([Effect.reply (unknownCommandText cfg command)], db1)

/-- bot.py handle_message (lines 93-126): refresh the user, short-circuit a
banned sender with the fixed banned reply, otherwise log the audit row and
route by prefix and message type. -/
def handle_message (cfg : Config) (env : Env) (db : DB) (msg : InMsg)
    (now : Int) : List Effect × DB :=
  let r := get_or_create_user cfg db msg.sender msg.sender_name now
  let user := r.1
  let db1 := r.2
  if user.is_banned then
    ([Effect.reply (bannedReplyText cfg)], db1)
  else
    let lg := log_message cfg db1 msg now
    let rest :=
      if (msg.text.getD "" != "") && (msg.text.getD "").startsWith cfg.BOT_PREFIX then
        handle_command cfg env lg.2 msg now
      else
        match msg.type with
        | .text => handle_ai_chat cfg env lg.2 msg now
        | .image => handle_image_message cfg env lg.2 msg now
        | .document => handle_file_message cfg env lg.2 msg now
        | .other =>
          ([Effect.reply ("🤖 I received your message! Send me text to chat or use " ++
             cfg.BOT_PREFIX ++ "help for commands.")], lg.2)
    (lg.1 ++ rest.1, rest.2)

/-! ## Concrete sample values used by witnesses and counterexamples -/

/-- The default configuration values of config.py. -/
def cfg0 : Config :=
  { BOT_PREFIX := "/"
    BOT_NAME := "WhatsApp AI Bot"
    BOT_ADMIN_PHONE := some "+15551234567"
    MAX_REQUESTS_PER_MINUTE := 30
    SUPPORTED_FILE_TYPES :=
      ["pdf", "txt", "html", "js", "py", "json", "csv",
       "md", "xml", "yaml", "yml", "log", "css", "java",
       "cpp", "c", "php", "rb", "go", "rs", "swift"]
    SUPPORTED_IMAGE_TYPES := ["jpg", "jpeg", "png", "gif", "webp"] }

/-- A sample environment in which every external call succeeds. -/
def env0 : Env :=
  { chatOutcome := BackendResult.ok (some "hello!")
    imageOutcome := BackendResult.ok (some "a cat")
    fileOutcome := BackendResult.ok (some "a report")
    mediaBytes := some "bytes"
    processFileContent := "file body"
    processFileExtension := "txt"
    processFileSize := 9
    uptimeStr := "1h 2m 3s"
    nowStr := "2026-10-12 00:00:00"
    mentionOf := fun _ => none }

/-- The configured admin. -/
def adminA : UserRec :=
  { phone_number := "+15551234567", name := some "Root", is_admin := true,
    is_banned := false, created_at := 0, last_seen := 0 }

/-- A second admin. -/
def adminB : UserRec :=
  { phone_number := "+15557770000", name := some "Ops", is_admin := true,
    is_banned := false, created_at := 0, last_seen := 0 }

/-- An ordinary member. -/
def member0 : UserRec :=
  { phone_number := "+15559876543", name := some "Sam", is_admin := false,
    is_banned := false, created_at := 0, last_seen := 0 }

/-- The same member, banned. -/
def member0Banned : UserRec := { member0 with is_banned := true }

/-- A sample database holding the three users. -/
def db0 : DB :=
  { users := [adminA, adminB, member0], groups := [], messages := [],
    aiRequests := [], fileProcessings := [], botStats := [] }

/-- The sample database with the member banned. -/
def db0Banned : DB := { db0 with users := [adminA, adminB, member0Banned] }

/-- A plain text message from the banned member. -/
def msgBanned : InMsg :=
  { msg_id := "m1", sender := "+15559876543", sender_name := some "Sam",
    type := MsgType.text, text := some "hi", image_filename := none,
    doc_filename := none, group_id := none }

/-- A 4100-character reply: 3500 times a, then 600 times b. -/
def text0 : List Char := List.replicate 3500 'a' ++ List.replicate 600 'b'

/-! # Theorems -/

/-- In a time-ordered queue, the prefix trim of the eviction loop removes
exactly the timestamps strictly below the cutoff. -/
theorem evictOld_eq_filter (cutoff : Int) (q : List Int)
    (h : q.Pairwise (· ≤ ·)) :
    evictOld cutoff q = q.filter (fun t => decide (cutoff ≤ t)) := by
  induction q with
  | nil => rfl
  | cons t ts ih =>
    rcases List.pairwise_cons.mp h with ⟨hle, hts⟩
    by_cases hlt : t < cutoff
    · have hfilter : (decide (cutoff ≤ t)) = false := by
        simp [not_le.mpr hlt]
      simp [evictOld, hlt, hfilter, ih hts]
    · have hct : cutoff ≤ t := not_lt.mp hlt
      have hall : ∀ x ∈ ts, decide (cutoff ≤ x) = true := by
        intro x hx
        simp [le_trans hct (hle x hx)]
      simp [evictOld, hlt, hct, List.filter_cons,
        List.filter_eq_self.mpr hall]

/-- C1: the admit operation of the rate limiter first discards the timestamps
older than `now - w` (on a time-ordered queue the prefix trim discards exactly
those), then admits and appends `now` iff the remaining count is strictly
below the maximum, and on rejection leaves the trimmed queue unchanged;
concretely, with N = 3 and W = 60, requests at times 0, 10, 20 are admitted,
a request at 30 is rejected, and a request at 61 is admitted again. -/
theorem rate_limiter_sliding_window :
    (∀ (n : Nat) (w : Int) (q : List Int) (now : Int),
        q.Pairwise (· ≤ ·) → limitStep n w q now = limitSpecStep n w q now)
    ∧ (runRequests 3 60 [0, 10, 20, 30, 61]).1 = [true, true, true, false, true] := by
  constructor
  · intro n w q now hq
    simp only [limitStep, limitSpecStep]
    rw [evictOld_eq_filter (now - w) q hq]
    rcases Nat.lt_or_ge (q.filter (fun t => decide (now - w ≤ t))).length n with h | h
    · rw [if_neg (Nat.not_le.mpr h), if_pos h]
    · rw [if_pos h, if_neg (Nat.not_lt.mpr h)]
  · decide

/-- Witness for C1 at concrete inputs. -/
theorem rate_limiter_sliding_window_witness :
    limitStep 3 60 [0, 10, 20] 30 = limitSpecStep 3 60 [0, 10, 20] 30 :=
  rate_limiter_sliding_window.1 3 60 [0, 10, 20] 30 (by decide)

/-- C9: when the rate_limit wrapper finds no Message or CallbackButton
argument to take an identity from, the wrapped function runs and the
rate-limit storage is returned untouched, for every limit, window, storage
and time. -/
theorem rate_limiter_unidentified_passthrough
    (maxRequests : Nat) (windowSeconds : Int) (storage : String → List Int)
    (now : Int) :
    rateLimitWrapper maxRequests windowSeconds none storage now = (true, storage) :=
  rfl

/-- C8: each AI operation maps a backend fault to its fixed fallback string,
without raising (the functions are total) and without letting the fault
detail influence the returned text. -/
theorem ai_backend_fault_fallback :
    ∀ detail : String,
      chat_response (BackendResult.fault detail) =
        "âŒ Sorry, I\x27m experiencing technical difficulties. Please try again later!"
      ∧ analyze_file_content (BackendResult.fault detail) =
        "âŒ Error analyzing file. Please try again or check if the file format is supported."
      ∧ analyze_image (BackendResult.fault detail) =
        "âŒ Error analyzing image. Please ensure the image is clear and try again."
      ∧ chat_response (BackendResult.fault detail) = chat_response (BackendResult.fault "")
      ∧ analyze_file_content (BackendResult.fault detail) =
          analyze_file_content (BackendResult.fault "")
      ∧ analyze_image (BackendResult.fault detail) =
          analyze_image (BackendResult.fault "") :=
  fun _ => ⟨rfl, rfl, rfl, rfl, rfl, rfl⟩

/-- C2: a banned sender gets exactly the fixed banned reply and nothing else:
no Message audit row, no AIRequest row, no file-processing row, no group or
stats write, and no further handler output (in particular no aiCall effect),
for every message type. -/
theorem banned_sender_short_circuit (cfg : Config) (env : Env) (db : DB)
    (msg : InMsg) (now : Int) (u : UserRec)
    (hfind : db.users.find? (fun v => v.phone_number == msg.sender) = some u)
    (hban : u.is_banned = true) :
    (handle_message cfg env db msg now).1 = [Effect.reply (bannedReplyText cfg)]
    ∧ (handle_message cfg env db msg now).2.messages = db.messages
    ∧ (handle_message cfg env db msg now).2.aiRequests = db.aiRequests
    ∧ (handle_message cfg env db msg now).2.fileProcessings = db.fileProcessings
    ∧ (handle_message cfg env db msg now).2.groups = db.groups
    ∧ (handle_message cfg env db msg now).2.botStats = db.botStats := by
  unfold handle_message get_or_create_user
  rw [hfind]
  simp [touchUser, hban]

/-- Witness for C2: the banned member sends a text message. -/
theorem banned_sender_short_circuit_witness :
    (handle_message cfg0 env0 db0Banned msgBanned 9).1
        = [Effect.reply (bannedReplyText cfg0)]
    ∧ (handle_message cfg0 env0 db0Banned msgBanned 9).2.messages = db0Banned.messages
    ∧ (handle_message cfg0 env0 db0Banned msgBanned 9).2.aiRequests = db0Banned.aiRequests
    ∧ (handle_message cfg0 env0 db0Banned msgBanned 9).2.fileProcessings = db0Banned.fileProcessings
    ∧ (handle_message cfg0 env0 db0Banned msgBanned 9).2.groups = db0Banned.groups
    ∧ (handle_message cfg0 env0 db0Banned msgBanned 9).2.botStats = db0Banned.botStats :=
  banned_sender_short_circuit cfg0 env0 db0Banned msgBanned 9 member0Banned
    (by decide) (by decide)

/-- C3: a non-admin caller of handle_admin_commands gets the access-denied
reply, no command-specific handler output, and an unchanged database, for
every admin command name (in particular admin, broadcast, ban, unban, stats). -/
theorem non_admin_commands_denied (cfg : Config) (env : Env) (db : DB)
    (msg : InMsg) (user : UserRec) (command : String) (now : Int)
    (h : user.is_admin = false) :
    handle_admin_commands cfg env db msg user command now
      = ([Effect.reply "❌ Access denied. Admin privileges required."], db) := by
  unfold handle_admin_commands
  simp [h]

/-- Witness for C3: the non-admin member invokes the ban command. -/
theorem non_admin_commands_denied_witness :
    handle_admin_commands cfg0 env0 db0 msgBanned member0 "ban" 9
      = ([Effect.reply "❌ Access denied. Admin privileges required."], db0) :=
  non_admin_commands_denied cfg0 env0 db0 msgBanned member0 "ban" 9 (by decide)

/-- C5: ban and unban are idempotent at the interface and banning an admin is
refused: banning an already banned target, banning an admin, and unbanning a
target that is not banned each produce only the corresponding warning reply
and leave the database untouched. -/
theorem ban_unban_idempotent (cfg : Config) (db : DB) (user : UserRec)
    (text tphone : String) (target : UserRec)
    (hp : targetPhoneOf text = some tphone)
    (hfind : db.users.find? (fun u => u.phone_number == tphone) = some target) :
    (target.is_admin = true →
      handle_ban_user cfg db user (some text)
        = ([Effect.reply "❌ Cannot ban an admin user."], db))
    ∧ (target.is_admin = false → target.is_banned = true →
      handle_ban_user cfg db user (some text)
        = ([Effect.reply ("⚠️ User " ++ tphone ++ " is already banned.")], db))
    ∧ (target.is_banned = false →
      handle_unban_user cfg db user (some text)
        = ([Effect.reply ("⚠️ User " ++ tphone ++ " is not banned.")], db)) := by
  refine ⟨fun ha => ?_, fun ha hb => ?_, fun hb => ?_⟩
  · simp only [handle_ban_user, hp, hfind]
    simp [ha]
  · simp only [handle_ban_user, hp, hfind]
    simp [ha, hb]
  · simp only [handle_unban_user, hp, hfind]
    simp [hb]

/-- Witness for C5: banning an admin, re-banning a banned member, and
unbanning a member that is not banned. -/
theorem ban_unban_idempotent_witness :
    handle_ban_user cfg0 db0 adminA (some "/ban +15557770000")
      = ([Effect.reply "❌ Cannot ban an admin user."], db0)
    ∧ handle_ban_user cfg0 db0Banned adminA (some "/ban +15559876543")
      = ([Effect.reply ("⚠️ User " ++ "+15559876543" ++ " is already banned.")], db0Banned)
    ∧ handle_unban_user cfg0 db0 adminA (some "/unban +15559876543")
      = ([Effect.reply ("⚠️ User " ++ "+15559876543" ++ " is not banned.")], db0) :=
  ⟨(ban_unban_idempotent cfg0 db0 adminA "/ban +15557770000" "+15557770000" adminB
      (by decide) (by decide)).1 (by decide),
   (ban_unban_idempotent cfg0 db0Banned adminA "/ban +15559876543" "+15559876543"
      member0Banned (by decide) (by decide)).2.1 (by decide) (by decide),
   (ban_unban_idempotent cfg0 db0 adminA "/unban +15559876543" "+15559876543"
      member0 (by decide) (by decide)).2.2 (by decide)⟩

/-- C4 counterexample: a successful ban changes the database (the flag is
written) but the post state carries no banned-by, banned-at or reason record:
it is exactly the old state with the target flag flipped, and is identical
whichever admin performs the ban, so the audit fields the claim says are
written together with the flag are not written at all. -/
theorem ban_audit_fields_counterexample :
    (handle_ban_user cfg0 db0 adminA (some "/ban +15559876543")).2
      = (handle_ban_user cfg0 db0 adminB (some "/ban +15559876543")).2
    ∧ (handle_ban_user cfg0 db0 adminA (some "/ban +15559876543")).2
      = { db0 with users := [adminA, adminB, { member0 with is_banned := true }] }
    ∧ (handle_ban_user cfg0 db0 adminA (some "/ban +15559876543")).2 ≠ db0 := by
  refine ⟨by decide, by decide, by decide⟩

/-- C4 amended: a successful ban persists exactly one change, the flip of the
target's is_banned flag, in a single commit; the User model has no banned-by,
banned-at or reason columns, so no audit fields exist to be written with it,
and the persisted outcome does not depend on which admin acted. -/
theorem ban_flip_single_field (cfg : Config) (db : DB) (user1 user2 : UserRec)
    (text tphone : String) (target : UserRec)
    (hp : targetPhoneOf text = some tphone)
    (hfind : db.users.find? (fun u => u.phone_number == tphone) = some target)
    (hadmin : target.is_admin = false) (hban : target.is_banned = false) :
    (handle_ban_user cfg db user1 (some text)).2
      = { db with users := updateUser db.users tphone (fun u => { u with is_banned := true }) }
    ∧ (handle_ban_user cfg db user1 (some text)).2
      = (handle_ban_user cfg db user2 (some text)).2 := by
  constructor
  · simp only [handle_ban_user, hp, hfind]
    simp [hadmin, hban]
  · simp only [handle_ban_user, hp, hfind]

/-- Witness for the amended C4 at concrete inputs. -/
theorem ban_flip_single_field_witness :
    (handle_ban_user cfg0 db0 adminA (some "/ban +15559876543")).2
      = { db0 with users := updateUser db0.users "+15559876543" (fun u => { u with is_banned := true }) }
    ∧ (handle_ban_user cfg0 db0 adminA (some "/ban +15559876543")).2
      = (handle_ban_user cfg0 db0 adminB (some "/ban +15559876543")).2 :=
  ban_flip_single_field cfg0 db0 adminA adminB "/ban +15559876543" "+15559876543"
    member0 (by decide) (by decide) (by decide) (by decide)

/-- When phone numbers are unique, mutating the first matching row mutates
every matching row: the in-place update equals a map that rewrites exactly
the target row. -/
theorem updateUser_eq_map (phone : String) (f : UserRec → UserRec) :
    ∀ (users : List UserRec), (users.map UserRec.phone_number).Nodup →
      updateUser users phone f
        = users.map (fun u => if u.phone_number = phone then f u else u) := by
  intro users h
  induction users with
  | nil => rfl
  | cons u us ih =>
    rw [List.map_cons, List.nodup_cons] at h
    rcases h with ⟨hnotin, hus⟩
    by_cases hu : u.phone_number = phone
    · have hrest : ∀ v ∈ us, (if v.phone_number = phone then f v else v) = v := by
        intro v hv
        have : v.phone_number ≠ phone := by
          intro he
          exact hnotin (hu ▸ he ▸ List.mem_map_of_mem UserRec.phone_number hv)
        exact if_neg this
      simp only [updateUser, if_pos hu, List.map_cons]
      rw [List.map_congr_left hrest]
      simp
    · simp only [updateUser, if_neg hu, List.map_cons]
      rw [ih hus]

/-- C10: under the unique-phone invariant, a successful ban (and symmetrically
a successful unban) rewrites exactly the target row, changing only its
is_banned field: every row keeps its phone number, name, admin flag and
timestamps, every non-target row is untouched, and no other table changes. -/
theorem ban_unban_frame (cfg : Config) (db : DB) (user : UserRec)
    (text tphone : String) (target : UserRec)
    (hnodup : (db.users.map UserRec.phone_number).Nodup)
    (hp : targetPhoneOf text = some tphone)
    (hfind : db.users.find? (fun u => u.phone_number == tphone) = some target) :
    (target.is_admin = false → target.is_banned = false →
      (handle_ban_user cfg db user (some text)).2.users
        = db.users.map (fun u => if u.phone_number = tphone then { u with is_banned := true } else u)
      ∧ (handle_ban_user cfg db user (some text)).2.users.map
            (fun u => (u.phone_number, u.name, u.is_admin, u.created_at, u.last_seen))
          = db.users.map (fun u => (u.phone_number, u.name, u.is_admin, u.created_at, u.last_seen))
      ∧ (handle_ban_user cfg db user (some text)).2.messages = db.messages
      ∧ (handle_ban_user cfg db user (some text)).2.aiRequests = db.aiRequests
      ∧ (handle_ban_user cfg db user (some text)).2.groups = db.groups)
    ∧ (target.is_banned = true →
      (handle_unban_user cfg db user (some text)).2.users
        = db.users.map (fun u => if u.phone_number = tphone then { u with is_banned := false } else u)
      ∧ (handle_unban_user cfg db user (some text)).2.users.map
            (fun u => (u.phone_number, u.name, u.is_admin, u.created_at, u.last_seen))
          = db.users.map (fun u => (u.phone_number, u.name, u.is_admin, u.created_at, u.last_seen))
      ∧ (handle_unban_user cfg db user (some text)).2.messages = db.messages) := by
  constructor
  · intro hadmin hban
    have husers : (handle_ban_user cfg db user (some text)).2.users
        = db.users.map (fun u => if u.phone_number = tphone then { u with is_banned := true } else u) := by
      simp only [handle_ban_user, hp, hfind]
      simp [hadmin, hban, updateUser_eq_map tphone _ db.users hnodup]
    refine ⟨husers, ?_, ?_, ?_, ?_⟩
    · rw [husers, List.map_map]
      refine List.map_congr_left ?_
      intro v _
      by_cases hv : v.phone_number = tphone <;> simp [hv]
    · simp only [handle_ban_user, hp, hfind]
      simp [hadmin, hban]
    · simp only [handle_ban_user, hp, hfind]
      simp [hadmin, hban]
    · simp only [handle_ban_user, hp, hfind]
      simp [hadmin, hban]
  · intro hban
    have husers : (handle_unban_user cfg db user (some text)).2.users
        = db.users.map (fun u => if u.phone_number = tphone then { u with is_banned := false } else u) := by
      simp only [handle_unban_user, hp, hfind]
      simp [hban, updateUser_eq_map tphone _ db.users hnodup]
    refine ⟨husers, ?_, ?_⟩
    · rw [husers, List.map_map]
      refine List.map_congr_left ?_
      intro v _
      by_cases hv : v.phone_number = tphone <;> simp [hv]
    · simp only [handle_unban_user, hp, hfind]
      simp [hban]

/-- Witness for C10 at concrete inputs. -/
theorem ban_unban_frame_witness :
    (handle_ban_user cfg0 db0 adminA (some "/ban +15559876543")).2.users
      = db0.users.map (fun u => if u.phone_number = "+15559876543" then { u with is_banned := true } else u)
    ∧ (handle_unban_user cfg0 db0Banned adminA (some "/unban +15559876543")).2.users
      = db0Banned.users.map (fun u => if u.phone_number = "+15559876543" then { u with is_banned := false } else u) :=
  ⟨((ban_unban_frame cfg0 db0 adminA "/ban +15559876543" "+15559876543" member0
      (by decide) (by decide) (by decide)).1 (by decide) (by decide)).1,
   ((ban_unban_frame cfg0 db0Banned adminA "/unban +15559876543" "+15559876543"
      member0Banned (by decide) (by decide) (by decide)).2 (by decide)).1⟩

/-- Shape of the first three chunks when the text needs at least two chunks:
they are the slices at character offsets 0, 3500 and (when present) 7000. -/
theorem pyChunks_take3 (text : List Char)
    (hm : 2 ≤ (text.length + 3499) / 3500) :
    (pyChunks text).take 3
      = if (text.length + 3499) / 3500 = 2 then
          [text.take 3500, (text.drop 3500).take 3500]
        else
          [text.take 3500, (text.drop 3500).take 3500, (text.drop 7000).take 3500] := by
  unfold pyChunks
  by_cases h2 : (text.length + 3499) / 3500 = 2
  · rw [if_pos h2, h2]
    have hr : List.range 2 = [0, 1] := rfl
    rw [hr]
    simp
  · rw [if_neg h2]
    obtain ⟨k, hk⟩ : ∃ k, (text.length + 3499) / 3500 = k + 3 :=
      ⟨(text.length + 3499) / 3500 - 3, by omega⟩
    rw [hk]
    rw [← List.map_take, List.take_range]
    have hmin : min 3 (k + 3) = 3 := by omega
    rw [hmin]
    have hr : List.range 3 = [0, 1, 2] := rfl
    rw [hr]
    simp

/-- C6 counterexample: for the 4100-character text of 3500 a-characters
followed by 600 b-characters, the concatenation of the follow-up chunk
payloads is the 600 b-characters, which is not a prefix of the original
text, refuting the claimed prefix round-trip. -/
theorem chunk_concat_counterexample :
    4000 < text0.length
    ∧ (followPayloads text0).flatten ≠ text0.take ((followPayloads text0).flatten).length := by
  have hlen : text0.length = 4100 := by
    rw [text0, List.length_append, List.length_replicate, List.length_replicate]
  have h2 : (text0.length + 3499) / 3500 = 2 := by rw [hlen]
  have hm : 2 ≤ (text0.length + 3499) / 3500 := h2.symm.le
  have hshape := pyChunks_take3 text0 hm
  rw [if_pos h2] at hshape
  have hdrop : text0.drop 3500 = List.replicate 600 'b' := by
    rw [text0, List.drop_left' (List.length_replicate 3500 'a')]
  have htake600 : (List.replicate 600 'b').take 3500 = List.replicate 600 'b' := by
    rw [List.take_replicate]
    have hmin : (3500 : Nat) ⊓ 600 = 600 := by norm_num
    rw [hmin]
  have hpay : followPayloads text0 = [List.replicate 600 'b'] := by
    unfold followPayloads
    rw [hshape, hdrop, htake600]
    rfl
  have hflat : (followPayloads text0).flatten = List.replicate 600 'b' := by
    rw [hpay, List.flatten_cons, List.flatten_nil, List.append_nil]
  have hflen : ((followPayloads text0).flatten).length = 600 := by
    rw [hflat, List.length_replicate]
  have htk : text0.take 600 = List.replicate 600 'a' := by
    rw [text0,
      List.take_append_of_le_length (by rw [List.length_replicate]; norm_num),
      List.take_replicate]
    have hmin : (600 : Nat) ⊓ 3500 = 600 := by norm_num
    rw [hmin]
  constructor
  · rw [hlen]
    norm_num
  · rw [hflen, htk, hflat]
    intro hcontra
    have hc := congrArg (List.count 'a') hcontra
    rw [List.count_replicate, List.count_replicate] at hc
    simp at hc

/-- C6 amended: a reply longer than 4000 characters is sent as the line-based
summary carrying the continuation marker, followed by at most 2 numbered
follow-up messages (Part 2 and Part 3) whose payloads are the 3500-character
slices of the full text starting at offset 3500; concatenating the payloads
reproduces the contiguous slice of the original from character 3500 up to at
most character 10500, and everything past 10500 is dropped, not corrupted. -/
theorem splitLong_structure (text : List Char) (h : 4000 < text.length) :
    splitLongMessage text = summaryOf text :: followUps text
    ∧ (∃ body, summaryOf text = body ++ truncMarker)
    ∧ (followPayloads text).length ≤ 2
    ∧ followUps text
        = (followPayloads text).enum.map (fun ic => partHeader (ic.1 + 2) ++ ic.2)
    ∧ (followPayloads text).flatten = (text.drop 3500).take 7000 := by
  have hm : 2 ≤ (text.length + 3499) / 3500 := by omega
  have hshape := pyChunks_take3 text hm
  refine ⟨?_, ⟨_, rfl⟩, ?_, ?_, ?_⟩
  · unfold splitLongMessage
    rw [if_pos h]
  · unfold followPayloads
    rw [hshape]
    by_cases h2 : (text.length + 3499) / 3500 = 2 <;> simp [h2]
  · unfold followUps followPayloads
    rw [hshape]
    by_cases h2 : (text.length + 3499) / 3500 = 2 <;> simp [h2] <;> rfl
  · unfold followPayloads
    rw [hshape]
    by_cases h2 : (text.length + 3499) / 3500 = 2
    · rw [if_pos h2]
      have hlen : text.length ≤ 7000 := by omega
      have hdl : (text.drop 3500).length ≤ 3500 := by
        rw [List.length_drop]; omega
      have hdl7 : (text.drop 3500).length ≤ 7000 := by omega
      simp [List.take_of_length_le hdl, List.take_of_length_le hdl7]
    · rw [if_neg h2]
      have h7 : (7000 : Nat) = 3500 + 3500 := rfl
      rw [h7, List.take_add]
      simp [List.drop_drop]

/-- Witness for the amended C6 at the concrete 4100-character text. -/
theorem splitLong_structure_witness :
    splitLongMessage text0 = summaryOf text0 :: followUps text0
    ∧ (∃ body, summaryOf text0 = body ++ truncMarker)
    ∧ (followPayloads text0).length ≤ 2
    ∧ followUps text0
        = (followPayloads text0).enum.map (fun ic => partHeader (ic.1 + 2) ++ ic.2)
    ∧ (followPayloads text0).flatten = (text0.drop 3500).take 7000 :=
  splitLong_structure text0 (by
    rw [text0, List.length_append, List.length_replicate, List.length_replicate]
    norm_num)

/-- C7: the daily snapshot is idempotent, running it a second time on the
same date performs no write, and it preserves the invariant of at most one
BotStats row per (metric, date). -/
theorem daily_stats_idempotent (db : DB) (today : Int) :
    record_daily_stats (record_daily_stats db today) today
        = record_daily_stats db today
    ∧ (statsKeyUnique db.botStats →
        statsKeyUnique (record_daily_stats db today).botStats) := by
  constructor
  · by_cases h : db.botStats.any (fun r => r.date == today)
    · simp [record_daily_stats, h]
    · have hfirst : record_daily_stats db today
          = { db with botStats := db.botStats ++ (dailyMetrics db).map (fun m =>
                ({ metric_name := m.1, metric_value := m.2, date := today } : StatsRow)) } := by
        simp [record_daily_stats, h]
      rw [hfirst]
      simp [record_daily_stats, List.any_append, dailyMetrics]
  · intro hu
    by_cases h : db.botStats.any (fun r => r.date == today)
    · simpa [record_daily_stats, h] using hu
    · have hnot : ∀ a ∈ db.botStats, a.date ≠ today := by
        intro a ha he
        exact h (List.any_eq_true.mpr ⟨a, ha, by simp [he]⟩)
      unfold record_daily_stats
      rw [if_neg h]
      rw [statsKeyUnique, List.pairwise_append]
      refine ⟨hu, ?_, ?_⟩
      · rw [List.pairwise_map]
        have he : (dailyMetrics db).map Prod.fst
            = ["total_users", "total_messages", "ai_requests",
               "files_processed", "active_groups"] := rfl
        have hnd : ((dailyMetrics db).map Prod.fst).Pairwise (· ≠ ·) := by
          rw [he]; decide
        have hp : (dailyMetrics db).Pairwise (fun a b => a.1 ≠ b.1) :=
          List.pairwise_map.mp hnd
        exact hp.imp (fun hne hc => hne hc.1)
      · intro a ha b hb
        rcases List.mem_map.mp hb with ⟨p, _, rfl⟩
        intro hc
        exact hnot a ha hc.2

/-- Witness for C7: recording twice on day 7 over the sample database. -/
theorem daily_stats_idempotent_witness :
    record_daily_stats (record_daily_stats db0 7) 7 = record_daily_stats db0 7
    ∧ statsKeyUnique (record_daily_stats db0 7).botStats :=
  ⟨(daily_stats_idempotent db0 7).1,
   (daily_stats_idempotent db0 7).2 (by simp [statsKeyUnique, db0])⟩

end WABot

